import Mathlib

/-!
Shallow embedding of the authentication subsystem of the backend:
password utilities (`app/utils/password.py`), email normalization
(`app/utils/email.py`), the JWT codec (`app/utils/jwt.py`), the
in-process login rate limiter and the auth route handlers
(`app/routes/auth.py`), together with theorems settling the spec claims.

Modelling conventions:
* timestamps are natural numbers (seconds); `datetime.utcnow()` becomes an
  explicit `now : Nat` argument;
* SHA-256 (`hash_token`) is modelled as an injective function (a tagged
  copy of its input) — collision-freeness is the standard symbolic model;
* bcrypt hashing is modelled as an injective tag and `verify_password` as
  comparison against it (correct, collision-free hashing);
* JWT signing is symbolic: a token is its claims plus the name of the
  signing key; verification checks the key name and the expiry;
* randomness (`uuid4` for the refresh `jti`, `secrets.randbelow` for
  reset-code digits) is passed in as explicit arguments;
* the SQLAlchemy session is a record of lists; `query(...).first()` is
  `List.find?`, `update(...)` is a positional `List.map`, and raising
  `HTTPException` before any mutation leaves the state unchanged, exactly
  as a rolled-back transaction does.
-/

/-- Python's `str.strip()`: drop whitespace from both ends. -/
def stripStr (s : String) : String :=
  String.mk
    (((s.data.dropWhile Char.isWhitespace).reverse.dropWhile Char.isWhitespace).reverse)

/-- Python's `str.lower()`, character by character. -/
def lowerStr (s : String) : String := String.mk (s.data.map Char.toLower)

/-- `normalize_email` from `app/utils/email.py`: strip leading/trailing
whitespace and lowercase. -/
def normalize_email (email : String) : String :=
  lowerStr (stripStr email)

/-- The fixed punctuation set of the special-character rule, the character
class of the regex in `validate_password_strength`
(`app/utils/password.py` line 103). -/
def specialChars : String := "!@#$%^&*()_+-=[]\x7b\x7d|;:,.<>?/\\`~"

/-- `re.search(r'[A-Z]', password)` — at least one ASCII uppercase letter. -/
def hasUpper (p : String) : Bool := p.data.any fun c => 'A' ≤ c && c ≤ 'Z'

/-- `re.search(r'[a-z]', password)` — at least one ASCII lowercase letter. -/
def hasLower (p : String) : Bool := p.data.any fun c => 'a' ≤ c && c ≤ 'z'

/-- `re.search(r'\d', password)` — at least one decimal digit. -/
def hasDigit (p : String) : Bool := p.data.any fun c => '0' ≤ c && c ≤ '9'

/-- `re.search(r'[!@#$%^&*()_+\-=\[\]{}|;:,.<>?/\\`~]', password)`. -/
def hasSpecial (p : String) : Bool := p.data.any fun c => specialChars.data.contains c

/-- `validate_password_strength` from `app/utils/password.py` (lines
58–106), translated check by check, in source order. -/
def validate_password_strength (password : String) : Bool × String :=
  if password.length < 8 then
    (false, "Password must be at least 8 characters long")
  else if 128 < password.length then
    (false, "Password must be less than 128 characters")
  else if !hasUpper password then
    (false, "Password must contain at least one uppercase letter")
  else if !hasLower password then
    (false, "Password must contain at least one lowercase letter")
  else if !hasDigit password then
    (false, "Password must contain at least one number")
  else if !hasSpecial password then
    (false, "Password must contain at least one special character")
  else
    (true, "")

/-- The six strength rules as the spec lists them, in the spec's fixed
order (length ≥ 8, length ≤ 128, uppercase, lowercase, digit, symbol),
each with its human-readable reason. -/
def strengthRules : List ((String → Bool) × String) :=
  [ (fun p => decide (8 ≤ p.length), "Password must be at least 8 characters long"),
    (fun p => decide (p.length ≤ 128), "Password must be less than 128 characters"),
    (hasUpper, "Password must contain at least one uppercase letter"),
    (hasLower, "Password must contain at least one lowercase letter"),
    (hasDigit, "Password must contain at least one number"),
    (hasSpecial, "Password must contain at least one special character") ]

/-- Spec-side semantics: return the first failing rule's reason, and
`(true, "")` when every rule passes. -/
def firstFailure : List ((String → Bool) × String) → String → Bool × String
  | [], _ => (true, "")
  | (r, msg) :: rest, p => if r p then firstFailure rest p else (false, msg)

theorem firstFailure_ok_iff (rules : List ((String → Bool) × String)) (p : String) :
    (firstFailure rules p).1 = true ↔ ∀ r ∈ rules, r.1 p = true := by
  induction rules with
  | nil => simp [firstFailure]
  | cons hd tl ih =>
    obtain ⟨r, msg⟩ := hd
    by_cases h : r p
    · simpa [firstFailure, h] using ih
    · simp [firstFailure, h]

/-! ## JWT codec (`app/utils/jwt.py`)

A token is modelled symbolically as its claims dictionary together with
the name of the key it was signed with; `jwt.decode` succeeds exactly
when the key matches the module's `SECRET_KEY` and the `exp` claim is
not in the past (python-jose raises `ExpiredSignatureError` iff
`exp < now`). -/

/-- Default of `os.getenv("SECRET_KEY", ...)` in `app/utils/jwt.py`. -/
def SECRET_KEY : String := "dev-secret-key-change-in-production"

def ACCESS_TOKEN_EXPIRE_MINUTES : Nat := 15

def REFRESH_TOKEN_EXPIRE_DAYS : Nat := 7

/-- The claims dictionary of a token: `payload.get(k)` is an `Option`
field. `iat`/`exp` are always set by both creators. -/
structure Claims where
  sub : Option Nat
  email : Option String
  subscription_tier : Option String
  type : Option String
  jti : Option String
  iat : Nat
  exp : Nat
deriving DecidableEq

/-- A signed token: the claims plus the signing key (symbolic HMAC). -/
structure Token where
  payload : Claims
  key : String
deriving DecidableEq

/-- `create_access_token` (`app/utils/jwt.py` lines 20–56): claims
`sub`, `email`, `subscription_tier`, `iat`, `exp = now + 15 min`; no
`type` claim. -/
def create_access_token (now : Nat) (user_id : Nat) (email subscription_tier : String) : Token :=
  { payload := { sub := some user_id, email := some email,
                 subscription_tier := some subscription_tier,
                 type := none, jti := none,
                 iat := now, exp := now + ACCESS_TOKEN_EXPIRE_MINUTES * 60 },
    key := SECRET_KEY }

/-- `create_refresh_token` (`app/utils/jwt.py` lines 59–97): claims
`sub`, `type="refresh"`, a caller-supplied fresh `jti` (the `uuid4`
draw), `iat`, `exp = now + 7 days`; returns `(token, jti)`. -/
def create_refresh_token (now : Nat) (user_id : Nat) (jti : String) : Token × String :=
  ({ payload := { sub := some user_id, email := none, subscription_tier := none,
                  type := some "refresh", jti := some jti,
                  iat := now, exp := now + REFRESH_TOKEN_EXPIRE_DAYS * 86400 },
     key := SECRET_KEY }, jti)

/-- `verify_token` (`app/utils/jwt.py` lines 100–123): signature and
expiry check, no revocation or kind check. -/
def verify_token (now : Nat) (token : Token) : Except String Claims :=
  if token.key ≠ SECRET_KEY then .error "Invalid token: Signature verification failed."
  else if token.payload.exp < now then .error "Invalid token: Signature has expired."
  else .ok token.payload

/-- `verify_access_token` (`app/utils/jwt.py` lines 126–151): `verify`
then reject `type = "refresh"`. -/
def verify_access_token (now : Nat) (token : Token) : Except String Claims :=
  match verify_token now token with
  | .error e => .error e
  | .ok payload =>
    if payload.type = some "refresh" then
      .error "Invalid token type: expected access token"
    else .ok payload

/-- `verify_refresh_token` (`app/utils/jwt.py` lines 154–179): `verify`
then require `type = "refresh"`. -/
def verify_refresh_token (now : Nat) (token : Token) : Except String Claims :=
  match verify_token now token with
  | .error e => .error e
  | .ok payload =>
    if payload.type ≠ some "refresh" then
      .error "Invalid token type: expected refresh token"
    else .ok payload

/-- `true` iff the verification succeeded. -/
def exOk {ε α : Type} : Except ε α → Bool
  | .ok _ => true
  | .error _ => false

/-- **C9** — `verify_access_token` (before expiry, with the module's
key) round-trips the subject, email and tier claims of a token produced
by `create_access_token`; `verify_access_token` fails on every token
carrying the refresh kind claim, and `verify_refresh_token` fails on
every token not carrying it. -/
theorem access_roundtrip_and_kind_separation
    (uid : Nat) (email tier : String) (nowI nowV : Nat)
    (h : nowV ≤ nowI + ACCESS_TOKEN_EXPIRE_MINUTES * 60) :
    (∃ c, verify_access_token nowV (create_access_token nowI uid email tier) = .ok c ∧
       c.sub = some uid ∧ c.email = some email ∧ c.subscription_tier = some tier) ∧
    (∀ (now : Nat) (t : Token), t.payload.type = some "refresh" →
       exOk (verify_access_token now t) = false) ∧
    (∀ (now : Nat) (t : Token), t.payload.type ≠ some "refresh" →
       exOk (verify_refresh_token now t) = false) := by
  refine ⟨⟨(create_access_token nowI uid email tier).payload, ?_, rfl, rfl, rfl⟩, ?_, ?_⟩
  · have hexp : ¬ (nowI + ACCESS_TOKEN_EXPIRE_MINUTES * 60 < nowV) := by omega
    simp [verify_access_token, verify_token, create_access_token, hexp]
  · intro now t ht
    unfold verify_access_token
    cases hv : verify_token now t with
    | error e => simp [exOk]
    | ok payload =>
      have : payload = t.payload := by
        unfold verify_token at hv
        split at hv
        · cases hv
        · split at hv
          · cases hv
          · cases hv; rfl
      simp [this, ht, exOk]
  · intro now t ht
    unfold verify_refresh_token
    cases hv : verify_token now t with
    | error e => simp [exOk]
    | ok payload =>
      have : payload = t.payload := by
        unfold verify_token at hv
        split at hv
        · cases hv
        · split at hv
          · cases hv
          · cases hv; rfl
      simp [this, ht, exOk]

/-- Witness for C9 at a concrete input. -/
theorem access_roundtrip_and_kind_separation_witness :
    (∃ c, verify_access_token 10 (create_access_token 0 1 "a@x.com" "free") = .ok c ∧
       c.sub = some 1 ∧ c.email = some "a@x.com" ∧ c.subscription_tier = some "free") ∧
    (∀ (now : Nat) (t : Token), t.payload.type = some "refresh" →
       exOk (verify_access_token now t) = false) ∧
    (∀ (now : Nat) (t : Token), t.payload.type ≠ some "refresh" →
       exOk (verify_refresh_token now t) = false) :=
  access_roundtrip_and_kind_separation 1 "a@x.com" "free" 0 10 (by decide)

/-- **C8** — `validate_password_strength` applies its rules in the fixed
order length ≥ 8, length ≤ 128, uppercase, lowercase, digit, symbol from
the fixed punctuation set; it returns not-ok with the first failing
rule's human-readable reason, and ok with empty reason exactly when all
rules pass. -/
theorem validate_password_strength_first_failure (p : String) :
    validate_password_strength p = firstFailure strengthRules p ∧
    ((validate_password_strength p).1 = true ↔ ∀ r ∈ strengthRules, r.1 p = true) := by
  have heq : validate_password_strength p = firstFailure strengthRules p := by
    simp only [validate_password_strength, strengthRules, firstFailure]
    split_ifs <;> simp_all <;> omega
  exact ⟨heq, heq ▸ firstFailure_ok_iff strengthRules p⟩

/-! ## Data model (`app/models/user.py`, `app/models/auth.py`)

Persisted rows as records; the SQLAlchemy session is a record of lists. -/

/-- A row of `users`. `password_hash` is nullable (OAuth-only accounts),
`deleted_at` is the soft-delete marker. -/
structure UserRec where
  id : Nat
  email : String
  name : String
  password_hash : Option String
  subscription_type : String
  created_at : Nat
  updated_at : Nat
  deleted_at : Option Nat
deriving DecidableEq

/-- A row of `refresh_tokens`. SHA-256 of the raw token string is
modelled as an injective function, so `token_hash` carries the (symbolic)
token itself. `revoked_at = none` means active. -/
structure RefreshTokenRec where
  user_id : Nat
  token_hash : Token
  expires_at : Nat
  revoked_at : Option Nat
deriving DecidableEq

/-- A row of `password_reset_tokens`. `used_at = none` means unused. -/
structure PasswordResetTokenRec where
  user_id : Nat
  token_hash : String
  expires_at : Nat
  used_at : Option Nat
deriving DecidableEq

/-- The relational store visible to the auth routes. -/
structure DB where
  users : List UserRec
  refresh_tokens : List RefreshTokenRec
  reset_tokens : List PasswordResetTokenRec
deriving DecidableEq

/-- `hash_token` (`app/routes/auth.py` lines 72–74) on plain strings
(reset codes): SHA-256 modelled as an injective tagged copy. -/
def hash_token (s : String) : String := "sha256$" ++ s

/-- `hash_password` (`app/utils/password.py`): bcrypt modelled as an
injective tagged copy (salting is not claim-relevant). -/
def hash_password (password : String) : String := "bcrypt$" ++ password

/-- `verify_password` (`app/utils/password.py`): matches exactly the
password the hash was produced from. -/
def verify_password (plain hashed : String) : Bool := hashed == "bcrypt$" ++ plain

deriving instance DecidableEq for Except

/-- HTTP error: `HTTPException(status_code, detail)`. -/
structure ApiError where
  status : Nat
  detail : String
deriving DecidableEq

structure UserResponse where
  id : Nat
  email : String
  name : String
  subscription_tier : String
  created_at : Nat
  updated_at : Nat
deriving DecidableEq

structure SignupResponse where
  id : Nat
  email : String
  name : String
  subscription_tier : String
deriving DecidableEq

structure LoginResponse where
  access_token : Token
  refresh_token : Token
  user : UserResponse
deriving DecidableEq

structure RefreshTokenResponse where
  access_token : Token
  refresh_token : Token
deriving DecidableEq

structure MessageResponse where
  message : String
deriving DecidableEq

/-! ## Rate limiter (`app/routes/auth.py` lines 33–69)

The process-wide `login_attempts: Dict[str, list]` as an association
list keyed by source IP. -/

abbrev AttemptMap := List (String × List Nat)

def MAX_LOGIN_ATTEMPTS : Nat := 5

def LOCKOUT_DURATION_MINUTES : Nat := 15

/-- Dictionary read: `login_attempts[ip]` when present. -/
def lookupAttempts (m : AttemptMap) (ip : String) : Option (List Nat) :=
  (m.find? (fun kv => kv.1 == ip)).map (fun kv => kv.2)

/-- Dictionary write: `login_attempts[ip] = l`. -/
def setAttempts : AttemptMap → String → List Nat → AttemptMap
  | [], ip, l => [(ip, l)]
  | (k, v) :: rest, ip, l =>
    if k == ip then (ip, l) :: rest else (k, v) :: setAttempts rest ip l

/-- `check_rate_limit` (`app/routes/auth.py` lines 39–62): allow when the
IP is unknown; otherwise prune entries at or before `now - 15 min` (the
pruning is a persistent mutation of the dictionary) and allow iff fewer
than 5 remain. Returns (allowed, updated map). -/
def check_rate_limit (now : Nat) (m : AttemptMap) (ip : String) : Bool × AttemptMap :=
  match lookupAttempts m ip with
  | none => (true, m)
  | some l =>
    let cutoff := now - LOCKOUT_DURATION_MINUTES * 60
    let pruned := l.filter (fun t => cutoff < t)
    (decide (pruned.length < MAX_LOGIN_ATTEMPTS), setAttempts m ip pruned)

/-- `record_failed_login` (`app/routes/auth.py` lines 65–69): append
`now` to the IP's failure list, creating it if absent. -/
def record_failed_login (now : Nat) (m : AttemptMap) (ip : String) : AttemptMap :=
  match lookupAttempts m ip with
  | none => setAttempts m ip [now]
  | some l => setAttempts m ip (l ++ [now])

/-- Number of recorded failures for `ip` inside the sliding 15-minute
window ending at `now` (the quantity `check_rate_limit` compares to 5). -/
def windowCount (now : Nat) (m : AttemptMap) (ip : String) : Nat :=
  match lookupAttempts m ip with
  | none => 0
  | some l => (l.filter (fun t => now - LOCKOUT_DURATION_MINUTES * 60 < t)).length

/-! ## Store queries used by the auth routes -/

/-- `db.query(User).filter(email == e, deleted_at.is_(None)).first()`. -/
def findActiveUserByEmail (db : DB) (email : String) : Option UserRec :=
  db.users.find? (fun u => u.email == email && u.deleted_at == none)

/-- Signup's duplicate check (`app/routes/auth.py` line 118): it does
NOT filter out soft-deleted users. -/
def findUserByEmailAnyStatus (db : DB) (email : String) : Option UserRec :=
  db.users.find? (fun u => u.email == email)

/-- `db.query(User).filter(id == uid, deleted_at.is_(None)).first()`. -/
def findActiveUserById (db : DB) (uid : Nat) : Option UserRec :=
  db.users.find? (fun u => u.id == uid && u.deleted_at == none)

/-- The refresh-route lookup filter (`app/routes/auth.py` lines
297–302): hash match, same user, not revoked, not expired. -/
def refreshMatches (now : Nat) (tok : Token) (uid : Nat) (r : RefreshTokenRec) : Bool :=
  r.token_hash == tok && r.user_id == uid && r.revoked_at == none &&
    decide (now < r.expires_at)

def findActiveRefresh (now : Nat) (db : DB) (tok : Token) (uid : Nat) :
    Option RefreshTokenRec :=
  db.refresh_tokens.find? (refreshMatches now tok uid)

/-- `stored_token.revoked_at = utcnow()` on the row `.first()` matched:
set `revoked_at` on the first record satisfying `p`. -/
def revokeFirst (now : Nat) (p : RefreshTokenRec → Bool) :
    List RefreshTokenRec → List RefreshTokenRec
  | [] => []
  | r :: rest =>
    if p r then { r with revoked_at := some now } :: rest
    else r :: revokeFirst now p rest

/-- The bulk update of logout / password reset (`app/routes/auth.py`
lines 385–388 and 559–562): set `revoked_at = now` on every record of
`uid` whose `revoked_at` is null. -/
def revokeAllForUser (now : Nat) (uid : Nat) (l : List RefreshTokenRec) :
    List RefreshTokenRec :=
  l.map fun r =>
    if r.user_id == uid && r.revoked_at == none then { r with revoked_at := some now } else r

/-- The reset-route lookup filter (`app/routes/auth.py` lines 531–536):
same user, hash match, not expired, not used. -/
def resetMatches (now : Nat) (uid : Nat) (codeHash : String)
    (r : PasswordResetTokenRec) : Bool :=
  r.user_id == uid && r.token_hash == codeHash &&
    decide (now < r.expires_at) && r.used_at == none

def findActiveReset (now : Nat) (db : DB) (uid : Nat) (codeHash : String) :
    Option PasswordResetTokenRec :=
  db.reset_tokens.find? (resetMatches now uid codeHash)

/-- `reset_token.used_at = utcnow()` on the row `.first()` matched. -/
def markFirstUsed (now : Nat) (p : PasswordResetTokenRec → Bool) :
    List PasswordResetTokenRec → List PasswordResetTokenRec
  | [] => []
  | r :: rest =>
    if p r then { r with used_at := some now } :: rest
    else r :: markFirstUsed now p rest

/-- `user.password_hash = ...` on the ORM row with primary key `uid`. -/
def updatePasswordHash (uid : Nat) (h : String) (l : List UserRec) : List UserRec :=
  l.map fun u => if u.id == uid then { u with password_hash := some h } else u

/-! ## Route handlers (`app/routes/auth.py`)

Each handler takes `now` and any random draws explicitly, the state it
reads/writes, and its request fields; it returns the response-or-error
together with the state after the request (unchanged whenever an
`HTTPException` is raised before the commit). -/

/-- `signup` (`app/routes/auth.py` lines 88–156): normalize the email,
validate strength, duplicate-email check (NOT filtered by soft-delete),
then insert the new `free`-tier user. `newId` stands for the
database-generated primary key. -/
def signup (newId now : Nat) (db : DB) (email name password : String) :
    Except ApiError SignupResponse × DB :=
  let normalized_email := normalize_email email
  let v := validate_password_strength password
  if v.1 = false then (.error ⟨400, v.2⟩, db)
  else
    match findUserByEmailAnyStatus db normalized_email with
    | some _ => (.error ⟨400, "Email already registered"⟩, db)
    | none =>
      let new_user : UserRec :=
        { id := newId, email := normalized_email, name := stripStr name,
          password_hash := some (hash_password password),
          subscription_type := "free",
          created_at := now, updated_at := now, deleted_at := none }
      (.ok { id := newId, email := normalized_email, name := stripStr name,
             subscription_tier := "free" },
       { db with users := db.users ++ [new_user] })

/-- The state shared by login: the store plus the process-wide
`login_attempts` dictionary. -/
structure AuthState where
  db : DB
  attempts : AttemptMap
deriving DecidableEq

/-- The f-string of the 429 branch with `LOCKOUT_DURATION_MINUTES = 15`. -/
def tooManyMsg : String :=
  "Too many failed login attempts. Please try again in 15 minutes."

/-- `login` (`app/routes/auth.py` lines 166–257): rate-limit gate first,
then active-user lookup, then password check; on failure record one
failed attempt for the source IP and answer 401 `Invalid credentials`;
on success issue the token pair and persist the refresh hash with a
7-day expiry. `jtiNew` is the fresh `uuid4` draw. -/
def login (now : Nat) (jtiNew : String) (st : AuthState) (ip email password : String) :
    Except ApiError LoginResponse × AuthState :=
  let gate := check_rate_limit now st.attempts ip
  if gate.1 = false then
    (.error ⟨429, tooManyMsg⟩, { st with attempts := gate.2 })
  else
    let normalized_email := normalize_email email
    match findActiveUserByEmail st.db normalized_email with
    | none =>
      (.error ⟨401, "Invalid credentials"⟩,
       { st with attempts := record_failed_login now gate.2 ip })
    | some user =>
      match user.password_hash with
      | none =>
        (.error ⟨401, "Invalid credentials"⟩,
         { st with attempts := record_failed_login now gate.2 ip })
      | some h =>
        if verify_password password h = false then
          (.error ⟨401, "Invalid credentials"⟩,
           { st with attempts := record_failed_login now gate.2 ip })
        else
          let access_token := create_access_token now user.id user.email user.subscription_type
          let refresh_token_str := (create_refresh_token now user.id jtiNew).1
          let newRec : RefreshTokenRec :=
            { user_id := user.id, token_hash := refresh_token_str,
              expires_at := now + 7 * 86400, revoked_at := none }
          (.ok { access_token := access_token, refresh_token := refresh_token_str,
                 user := { id := user.id, email := user.email, name := user.name,
                           subscription_tier := user.subscription_type,
                           created_at := user.created_at, updated_at := user.updated_at } },
           { st with db := { st.db with refresh_tokens := st.db.refresh_tokens ++ [newRec] },
                     attempts := gate.2 })

/-- `refresh_token` (`app/routes/auth.py` lines 267–357): verify the
refresh JWT, look up the matching active persisted record, look up the
active user, then — in one commit — revoke the matched record, persist
the new refresh hash and return the new pair. -/
def refresh_token (now : Nat) (jtiNew : String) (db : DB) (tok : Token) :
    Except ApiError RefreshTokenResponse × DB :=
  match verify_refresh_token now tok with
  | .error e => (.error ⟨401, "Invalid refresh token: " ++ e⟩, db)
  | .ok payload =>
    match payload.sub with
    | none => (.error ⟨401, "Invalid refresh token"⟩, db)
    | some uid =>
      match findActiveRefresh now db tok uid with
      | none => (.error ⟨401, "Refresh token not found, expired, or revoked"⟩, db)
      | some _ =>
        match findActiveUserById db uid with
        | none => (.error ⟨401, "User not found"⟩, db)
        | some user =>
          let new_access_token :=
            create_access_token now user.id user.email user.subscription_type
          let new_refresh_token := (create_refresh_token now user.id jtiNew).1
          let newRec : RefreshTokenRec :=
            { user_id := user.id, token_hash := new_refresh_token,
              expires_at := now + 7 * 86400, revoked_at := none }
          (.ok { access_token := new_access_token, refresh_token := new_refresh_token },
           { db with refresh_tokens :=
               revokeFirst now (refreshMatches now tok uid) db.refresh_tokens ++ [newRec] })

/-- `verify_jwt_token` (`app/middleware/auth.py` lines 20–75): verify an
access token and require the `sub` claim. -/
def verify_jwt_token (now : Nat) (tok : Token) : Except ApiError Claims :=
  match verify_access_token now tok with
  | .error e => .error ⟨401, "Invalid token: " ++ e⟩
  | .ok payload =>
    match payload.sub with
    | none => .error ⟨401, "Invalid token: missing user ID"⟩
    | some _ => .ok payload

/-- `logout` (`app/routes/auth.py` lines 367–394): verify the access
token, then set `revoked_at = now` on every record of that user whose
`revoked_at` is null. -/
def logout (now : Nat) (db : DB) (tok : Token) :
    Except ApiError MessageResponse × DB :=
  match verify_jwt_token now tok with
  | .error e => (.error e, db)
  | .ok payload =>
    match payload.sub with
    | none => (.error ⟨401, "Invalid token: missing user ID"⟩, db)
    | some uid =>
      (.ok ⟨"Logged out successfully"⟩,
       { db with refresh_tokens := revokeAllForUser now uid db.refresh_tokens })

/-- One draw of `secrets.randbelow(10)` rendered as its digit character. -/
def digitChar (d : Fin 10) : Char := Char.ofNat ('0'.toNat + d.val)

/-- `''.join([str(secrets.randbelow(10)) for _ in range(6)])` with the
six draws supplied as `digits`. -/
def resetCodeString (digits : Fin 6 → Fin 10) : String :=
  String.mk ((List.finRange 6).map (fun i => digitChar (digits i)))

/-- The anti-enumeration response of the reset request route. -/
def resetRequestMsg : String := "If the email exists, a reset code has been sent"

/-- `request_password_reset` (`app/routes/auth.py` lines 436–481): if an
active user with the normalized email exists, generate a 6-digit code,
persist its hash with a 1-hour expiry; always return the same success
message. -/
def request_password_reset (now : Nat) (digits : Fin 6 → Fin 10) (db : DB)
    (email : String) : MessageResponse × DB :=
  let normalized_email := normalize_email email
  match findActiveUserByEmail db normalized_email with
  | none => (⟨resetRequestMsg⟩, db)
  | some user =>
    let reset_code := resetCodeString digits
    let code_hash := hash_token reset_code
    let newRec : PasswordResetTokenRec :=
      { user_id := user.id, token_hash := code_hash,
        expires_at := now + 3600, used_at := none }
    (⟨resetRequestMsg⟩, { db with reset_tokens := db.reset_tokens ++ [newRec] })

/-- `reset_password` (`app/routes/auth.py` lines 491–568): active-user
lookup, active (unused, unexpired) reset-record lookup by code hash,
strength validation; on success — in one commit — update the password
hash, set `used_at` on the matched record, and revoke all of the user's
active refresh tokens. -/
def reset_password (now : Nat) (db : DB) (email reset_tok new_password : String) :
    Except ApiError MessageResponse × DB :=
  let normalized_email := normalize_email email
  match findActiveUserByEmail db normalized_email with
  | none => (.error ⟨400, "Invalid reset code or email"⟩, db)
  | some user =>
    let code_hash := hash_token reset_tok
    match findActiveReset now db user.id code_hash with
    | none => (.error ⟨400, "Invalid or expired reset code"⟩, db)
    | some _ =>
      let v := validate_password_strength new_password
      if v.1 = false then (.error ⟨400, v.2⟩, db)
      else
        (.ok ⟨"Password reset successfully. Please login with your new password."⟩,
         { users := updatePasswordHash user.id (hash_password new_password) db.users,
           refresh_tokens := revokeAllForUser now user.id db.refresh_tokens,
           reset_tokens :=
             markFirstUsed now (resetMatches now user.id code_hash) db.reset_tokens })

/-! ## Rate-limiter lemmas -/

theorem lookupAttempts_cons (k : String) (v : List Nat) (rest : AttemptMap) (ip : String) :
    lookupAttempts ((k, v) :: rest) ip =
      if k = ip then some v else lookupAttempts rest ip := by
  by_cases h : k = ip
  · rw [if_pos h]
    unfold lookupAttempts
    rw [List.find?_cons_of_pos _ (by simpa using h)]
    rfl
  · rw [if_neg h]
    unfold lookupAttempts
    rw [List.find?_cons_of_neg _ (by simpa using h)]

theorem lookupAttempts_setAttempts_self (m : AttemptMap) (ip : String) (l : List Nat) :
    lookupAttempts (setAttempts m ip l) ip = some l := by
  induction m with
  | nil => simp [setAttempts, lookupAttempts_cons]
  | cons kv rest ih =>
    obtain ⟨k, v⟩ := kv
    by_cases h : k = ip
    · simp [setAttempts, h, lookupAttempts_cons]
    · simp [setAttempts, h, lookupAttempts_cons, ih]

theorem lookupAttempts_setAttempts_other (m : AttemptMap) (ip ip2 : String)
    (l : List Nat) (hne : ip2 ≠ ip) :
    lookupAttempts (setAttempts m ip l) ip2 = lookupAttempts m ip2 := by
  induction m with
  | nil => simp [setAttempts, lookupAttempts_cons, lookupAttempts, Ne.symm hne]
  | cons kv rest ih =>
    obtain ⟨k, v⟩ := kv
    by_cases h : k = ip
    · subst h
      simp [setAttempts, lookupAttempts_cons, Ne.symm hne]
    · simp [setAttempts, h, lookupAttempts_cons, ih]

theorem lookupAttempts_record_failed_self (now : Nat) (m : AttemptMap) (ip : String) :
    lookupAttempts (record_failed_login now m ip) ip =
      some ((lookupAttempts m ip).getD [] ++ [now]) := by
  unfold record_failed_login
  cases h : lookupAttempts m ip with
  | none => simp [h, lookupAttempts_setAttempts_self]
  | some l => simp [h, lookupAttempts_setAttempts_self]

theorem lookupAttempts_record_failed_other (now : Nat) (m : AttemptMap)
    (ip ip2 : String) (hne : ip2 ≠ ip) :
    lookupAttempts (record_failed_login now m ip) ip2 = lookupAttempts m ip2 := by
  unfold record_failed_login
  cases h : lookupAttempts m ip <;>
    simp [lookupAttempts_setAttempts_other _ _ _ _ hne]

theorem check_rate_limit_fst (now : Nat) (m : AttemptMap) (ip : String) :
    (check_rate_limit now m ip).1 =
      decide (windowCount now m ip < MAX_LOGIN_ATTEMPTS) := by
  unfold check_rate_limit windowCount
  cases h : lookupAttempts m ip <;> simp [MAX_LOGIN_ATTEMPTS]

theorem lookupAttempts_check_rate_limit_other (now : Nat) (m : AttemptMap)
    (ip ip2 : String) (hne : ip2 ≠ ip) :
    lookupAttempts (check_rate_limit now m ip).2 ip2 = lookupAttempts m ip2 := by
  unfold check_rate_limit
  cases h : lookupAttempts m ip <;>
    simp [lookupAttempts_setAttempts_other _ _ _ _ hne]

/-- Pruning at `now` does not change the count inside any window ending
at `now2 ≥ now`. -/
theorem windowCount_check_rate_limit (now now2 : Nat) (m : AttemptMap)
    (ip ip2 : String) (h : now ≤ now2) :
    windowCount now2 (check_rate_limit now m ip).2 ip2 = windowCount now2 m ip2 := by
  by_cases hip : ip2 = ip
  · subst hip
    unfold check_rate_limit
    cases hl : lookupAttempts m ip2 with
    | none => simp
    | some l =>
      simp only [windowCount, lookupAttempts_setAttempts_self, hl]
      rw [List.filter_filter]
      congr 1
      apply List.filter_congr
      intro t _
      by_cases h2 : now2 - LOCKOUT_DURATION_MINUTES * 60 < t
      · have h1 : now - LOCKOUT_DURATION_MINUTES * 60 < t := by omega
        simp [h1, h2]
      · simp [h2]
  · unfold windowCount
    rw [lookupAttempts_check_rate_limit_other now m ip ip2 hip]

/-- **C7** — `login` fails with `TooManyAttempts` (429) iff the source
IP has `MAX_LOGIN_ATTEMPTS` (5) or more recorded failures inside the
sliding 15-minute window, and it does so before touching credentials:
when the limiter denies, the outcome and state are the same for every
email/password and the store is untouched. A successful login changes no
IP's window count, and any login from `ip` leaves every other IP's
recorded failures unchanged. -/
theorem login_rate_limit_gate
    (now : Nat) (jtiNew : String) (st : AuthState) (ip email password : String) :
    ((login now jtiNew st ip email password).1 = .error ⟨429, tooManyMsg⟩ ↔
      MAX_LOGIN_ATTEMPTS ≤ windowCount now st.attempts ip) ∧
    (MAX_LOGIN_ATTEMPTS ≤ windowCount now st.attempts ip →
      ∀ email2 password2 jti2,
        login now jtiNew st ip email password = login now jti2 st ip email2 password2 ∧
        (login now jtiNew st ip email password).2.db = st.db) ∧
    (∀ r, (login now jtiNew st ip email password).1 = .ok r →
      ∀ now2, now ≤ now2 → ∀ ip2,
        windowCount now2 (login now jtiNew st ip email password).2.attempts ip2 =
          windowCount now2 st.attempts ip2) ∧
    (∀ ip2, ip2 ≠ ip →
      lookupAttempts (login now jtiNew st ip email password).2.attempts ip2 =
        lookupAttempts st.attempts ip2) := by
  by_cases hden : (check_rate_limit now st.attempts ip).1 = false
  · have hwc : MAX_LOGIN_ATTEMPTS ≤ windowCount now st.attempts ip := by
      rw [check_rate_limit_fst] at hden
      simp at hden
      omega
    have hlog : ∀ jti e p, login now jti st ip e p =
        (.error ⟨429, tooManyMsg⟩,
         { st with attempts := (check_rate_limit now st.attempts ip).2 }) := by
      intro jti e p
      simp [login, hden]
    refine ⟨?_, ?_, ?_, ?_⟩
    · rw [hlog]
      simp [hwc]
    · intro _ e2 p2 jti2
      rw [hlog, hlog]
      exact ⟨rfl, rfl⟩
    · intro r hr
      rw [hlog] at hr
      simp at hr
    · intro ip2 hne
      rw [hlog]
      exact lookupAttempts_check_rate_limit_other now st.attempts ip ip2 hne
  · have hal : (check_rate_limit now st.attempts ip).1 = true := by
      revert hden
      cases (check_rate_limit now st.attempts ip).1 <;> simp
    have hwc : windowCount now st.attempts ip < MAX_LOGIN_ATTEMPTS := by
      rw [check_rate_limit_fst] at hal
      simpa using hal
    have hfail : ∀ (res : Except ApiError LoginResponse × AuthState),
        res.1 = .error ⟨401, "Invalid credentials"⟩ →
        res.2.attempts = record_failed_login now (check_rate_limit now st.attempts ip).2 ip →
        ((res.1 = .error ⟨429, tooManyMsg⟩ ↔
           MAX_LOGIN_ATTEMPTS ≤ windowCount now st.attempts ip) ∧
         (MAX_LOGIN_ATTEMPTS ≤ windowCount now st.attempts ip →
           ∀ email2 password2 jti2,
             login now jtiNew st ip email password = login now jti2 st ip email2 password2 ∧
             (login now jtiNew st ip email password).2.db = st.db) ∧
         (∀ r, res.1 = .ok r →
           ∀ now2, now ≤ now2 → ∀ ip2,
             windowCount now2 res.2.attempts ip2 = windowCount now2 st.attempts ip2) ∧
         (∀ ip2, ip2 ≠ ip →
           lookupAttempts res.2.attempts ip2 = lookupAttempts st.attempts ip2)) := by
      intro res h1 h2
      refine ⟨?_, ?_, ?_, ?_⟩
      · rw [h1]
        constructor
        · intro h
          simp at h
        · intro h
          exact absurd h (by omega)
      · intro h
        exact absurd h (by omega)
      · intro r hr
        rw [h1] at hr
        simp at hr
      · intro ip2 hne
        rw [h2, lookupAttempts_record_failed_other _ _ _ _ hne]
        exact lookupAttempts_check_rate_limit_other now st.attempts ip ip2 hne
    rcases hu : findActiveUserByEmail st.db (normalize_email email) with _ | u
    · have hlog : login now jtiNew st ip email password =
          (.error ⟨401, "Invalid credentials"⟩,
           { st with attempts :=
               record_failed_login now (check_rate_limit now st.attempts ip).2 ip }) := by
        simp [login, hal, hu]
      exact hfail (login now jtiNew st ip email password) (by rw [hlog]) (by rw [hlog])
    · rcases hph : u.password_hash with _ | h
      · have hlog : login now jtiNew st ip email password =
            (.error ⟨401, "Invalid credentials"⟩,
             { st with attempts :=
                 record_failed_login now (check_rate_limit now st.attempts ip).2 ip }) := by
          simp [login, hal, hu, hph]
        exact hfail (login now jtiNew st ip email password) (by rw [hlog]) (by rw [hlog])
      · by_cases hvp : verify_password password h = false
        · have hlog : login now jtiNew st ip email password =
              (.error ⟨401, "Invalid credentials"⟩,
               { st with attempts :=
                   record_failed_login now (check_rate_limit now st.attempts ip).2 ip }) := by
            simp [login, hal, hu, hph, hvp]
          exact hfail (login now jtiNew st ip email password) (by rw [hlog]) (by rw [hlog])
        · have hlog : (login now jtiNew st ip email password).2 =
              { st with
                db := { st.db with refresh_tokens := st.db.refresh_tokens ++
                  [{ user_id := u.id,
                     token_hash := (create_refresh_token now u.id jtiNew).1,
                     expires_at := now + 7 * 86400, revoked_at := none }] },
                attempts := (check_rate_limit now st.attempts ip).2 } ∧
              (login now jtiNew st ip email password).1 =
                .ok { access_token := create_access_token now u.id u.email u.subscription_type,
                      refresh_token := (create_refresh_token now u.id jtiNew).1,
                      user := { id := u.id, email := u.email, name := u.name,
                                subscription_tier := u.subscription_type,
                                created_at := u.created_at, updated_at := u.updated_at } } := by
            constructor <;> simp [login, hal, hu, hph, hvp]
          refine ⟨?_, ?_, ?_, ?_⟩
          · rw [hlog.2]
            constructor
            · intro h
              simp at h
            · intro h
              exact absurd h (by omega)
          · intro h
            exact absurd h (by omega)
          · intro r _ now2 h2 ip2
            rw [hlog.1]
            exact windowCount_check_rate_limit now now2 st.attempts ip ip2 h2
          · intro ip2 hne
            rw [hlog.1]
            exact lookupAttempts_check_rate_limit_other now st.attempts ip ip2 hne

/-- **C5** — from the same state, a login with an email belonging to no
active user and a login with an active user's email but a wrong password
(or a passwordless OAuth account) fail with the identical error kind and
message (401 `Invalid credentials`), leave the store untouched, and each
record exactly one failed attempt against the caller's source IP. -/
theorem login_indistinguishable_failures
    (now : Nat) (jti1 jti2 : String) (st : AuthState) (ip e1 p1 e2 p2 : String)
    (u : UserRec)
    (hallow : (check_rate_limit now st.attempts ip).1 = true)
    (h1 : findActiveUserByEmail st.db (normalize_email e1) = none)
    (h2 : findActiveUserByEmail st.db (normalize_email e2) = some u)
    (hwrong : ∀ h, u.password_hash = some h → verify_password p2 h = false) :
    (login now jti1 st ip e1 p1).1 = .error ⟨401, "Invalid credentials"⟩ ∧
    (login now jti2 st ip e2 p2).1 = .error ⟨401, "Invalid credentials"⟩ ∧
    (login now jti1 st ip e1 p1).1 = (login now jti2 st ip e2 p2).1 ∧
    (login now jti1 st ip e1 p1).2 = (login now jti2 st ip e2 p2).2 ∧
    (login now jti1 st ip e1 p1).2.db = st.db ∧
    (login now jti1 st ip e1 p1).2.attempts =
      record_failed_login now (check_rate_limit now st.attempts ip).2 ip ∧
    lookupAttempts (login now jti1 st ip e1 p1).2.attempts ip =
      some ((lookupAttempts (check_rate_limit now st.attempts ip).2 ip).getD [] ++ [now]) := by
  have hlog1 : login now jti1 st ip e1 p1 =
      (.error ⟨401, "Invalid credentials"⟩,
       { st with attempts :=
           record_failed_login now (check_rate_limit now st.attempts ip).2 ip }) := by
    simp [login, hallow, h1]
  have hlog2 : login now jti2 st ip e2 p2 =
      (.error ⟨401, "Invalid credentials"⟩,
       { st with attempts :=
           record_failed_login now (check_rate_limit now st.attempts ip).2 ip }) := by
    rcases hph : u.password_hash with _ | h
    · simp [login, hallow, h2, hph]
    · simp [login, hallow, h2, hph, hwrong h hph]
  rw [hlog1, hlog2]
  refine ⟨rfl, rfl, rfl, rfl, rfl, rfl, ?_⟩
  exact lookupAttempts_record_failed_self now (check_rate_limit now st.attempts ip).2 ip

/-- Concrete user for the C5 witness. -/
def c5User : UserRec :=
  { id := 1, email := "a@x.com", name := "A",
    password_hash := some (hash_password "Right1!a"), subscription_type := "free",
    created_at := 0, updated_at := 0, deleted_at := none }

/-- Concrete state for the C5 witness: one user, no recorded attempts. -/
def c5State : AuthState := ⟨⟨[c5User], [], []⟩, []⟩

/-- Witness for C5: `"b@x.com"` is unknown, `"a@x.com"` exists but the
password is wrong. -/
theorem login_indistinguishable_failures_witness :
    (login 0 "j1" c5State "9.9.9.9" "b@x.com" "Wrong1!a").1 =
      .error ⟨401, "Invalid credentials"⟩ ∧
    (login 0 "j2" c5State "9.9.9.9" "a@x.com" "Wrong1!a").1 =
      .error ⟨401, "Invalid credentials"⟩ ∧
    (login 0 "j1" c5State "9.9.9.9" "b@x.com" "Wrong1!a").1 =
      (login 0 "j2" c5State "9.9.9.9" "a@x.com" "Wrong1!a").1 ∧
    (login 0 "j1" c5State "9.9.9.9" "b@x.com" "Wrong1!a").2 =
      (login 0 "j2" c5State "9.9.9.9" "a@x.com" "Wrong1!a").2 ∧
    (login 0 "j1" c5State "9.9.9.9" "b@x.com" "Wrong1!a").2.db = c5State.db ∧
    (login 0 "j1" c5State "9.9.9.9" "b@x.com" "Wrong1!a").2.attempts =
      record_failed_login 0 (check_rate_limit 0 c5State.attempts "9.9.9.9").2 "9.9.9.9" ∧
    lookupAttempts (login 0 "j1" c5State "9.9.9.9" "b@x.com" "Wrong1!a").2.attempts
        "9.9.9.9" =
      some ((lookupAttempts (check_rate_limit 0 c5State.attempts "9.9.9.9").2
        "9.9.9.9").getD [] ++ [0]) :=
  login_indistinguishable_failures 0 "j1" "j2" c5State "9.9.9.9" "b@x.com" "Wrong1!a"
    "a@x.com" "Wrong1!a" c5User (by decide) (by decide) (by decide)
    (by
      intro h hh
      simp [c5User, hash_password] at hh
      subst hh
      decide)

/-- **C10** — whenever `reset_password` fails — unknown or soft-deleted
email, non-matching / expired / already-used code, or a weak new
password — the store is unchanged: no password hash is updated, no
reset record is marked used, no refresh token is revoked. -/
theorem reset_password_failure_preserves_state
    (now : Nat) (db : DB) (email code pw : String) (e : ApiError)
    (h : (reset_password now db email code pw).1 = .error e) :
    (reset_password now db email code pw).2 = db := by
  unfold reset_password at h ⊢
  rcases hu : findActiveUserByEmail db (normalize_email email) with _ | u
  · simp [hu]
  · simp only [hu] at h ⊢
    rcases hr : findActiveReset now db u.id (hash_token code) with _ | r
    · simp [hr]
    · simp only [hr] at h ⊢
      by_cases hv : (validate_password_strength pw).1 = false
      · simp [hv]
      · simp [hv] at h

/-- Witness for C10: empty store, unknown email — the call fails and the
store is returned unchanged. -/
theorem reset_password_failure_preserves_state_witness :
    (reset_password 0 ⟨[], [], []⟩ "a@x.com" "000000" "pw").2 = ⟨[], [], []⟩ :=
  reset_password_failure_preserves_state 0 ⟨[], [], []⟩ "a@x.com" "000000" "pw"
    ⟨400, "Invalid reset code or email"⟩ (by decide)

/-- The soft-deleted user of the C2 counterexample. -/
def c2DeletedUser : UserRec :=
  { id := 1, email := "a@x.com", name := "A",
    password_hash := some (hash_password "Right1!a"), subscription_type := "free",
    created_at := 0, updated_at := 0, deleted_at := some 5 }

/-- Store of the C2 counterexample: the only user with this email is
soft-deleted. -/
def c2DB : DB := ⟨[c2DeletedUser], [], []⟩

/-- **C2 counterexample** — the claim says a soft-deleted record must
not cause `EmailTaken`; here the only record with the email is
soft-deleted (no active user exists), the password is strong, and
`signup` still fails with `Email already registered`. -/
theorem signup_soft_deleted_email_taken_counterexample :
    (signup 99 10 c2DB "a@x.com" "Bob" "Xyzw1!ab").1 =
      .error ⟨400, "Email already registered"⟩ ∧
    findActiveUserByEmail c2DB (normalize_email "a@x.com") = none ∧
    (validate_password_strength "Xyzw1!ab").1 = true := by
  refine ⟨by decide, by decide, by decide⟩

/-- **C2 (amended)** — given a password passing strength validation,
`signup` fails with `EmailTaken` iff ANY user record — active or
soft-deleted — with the normalized email exists; a soft-deleted record
also blocks the email (the duplicate check at `app/routes/auth.py` line
118 does not filter on `deleted_at`, matching the unconditional unique
index on `users.email`). -/
theorem signup_email_taken_iff_any_record
    (newId now : Nat) (db : DB) (email name password : String)
    (hstrong : (validate_password_strength password).1 = true) :
    (signup newId now db email name password).1 =
        .error ⟨400, "Email already registered"⟩ ↔
      ∃ u ∈ db.users, u.email = normalize_email email := by
  have hnf : ¬ ((validate_password_strength password).1 = false) := by
    simp [hstrong]
  unfold signup
  rcases hf : findUserByEmailAnyStatus db (normalize_email email) with _ | u
  · simp only [hnf, if_false, hf]
    constructor
    · intro h
      simp at h
    · intro ⟨u, hu, he⟩
      exfalso
      have := List.find?_eq_none.mp hf u hu
      simp [he] at this
  · simp only [hnf, if_false, hf]
    constructor
    · intro _
      refine ⟨u, List.mem_of_find?_eq_some hf, ?_⟩
      have := List.find?_some hf
      simpa using this
    · intro _
      rfl

/-- Witness for C2 (amended): empty store, strong password — no record
with the email exists and signup does not fail with `EmailTaken`. -/
theorem signup_email_taken_iff_any_record_witness :
    ((signup 1 0 ⟨[], [], []⟩ "a@x.com" "Bob" "Xyzw1!ab").1 =
        .error ⟨400, "Email already registered"⟩ ↔
      ∃ u ∈ (⟨[], [], []⟩ : DB).users, u.email = normalize_email "a@x.com") :=
  signup_email_taken_iff_any_record 1 0 ⟨[], [], []⟩ "a@x.com" "Bob" "Xyzw1!ab"
    (by decide)

/-- **C6** — `request_password_reset` returns the identical success
response whether or not an active user with the normalized email
exists; when one exists it persists the hash of a 6-digit numeric code
(leading zeros allowed) with a 1-hour expiry, and when none exists it
changes no state. -/
theorem request_password_reset_anti_enumeration
    (now : Nat) (digits : Fin 6 → Fin 10) (db : DB) (email : String) :
    (request_password_reset now digits db email).1 = ⟨resetRequestMsg⟩ ∧
    (request_password_reset now digits db email).2 =
      (match findActiveUserByEmail db (normalize_email email) with
       | none => db
       | some user =>
         { db with reset_tokens := db.reset_tokens ++
             [{ user_id := user.id, token_hash := hash_token (resetCodeString digits),
                expires_at := now + 3600, used_at := none }] }) ∧
    (resetCodeString digits).length = 6 ∧
    (∀ c ∈ (resetCodeString digits).data, c.isDigit = true) := by
  refine ⟨?_, ?_, ?_, ?_⟩
  · cases hf : findActiveUserByEmail db (normalize_email email) <;>
      simp [request_password_reset, hf]
  · cases hf : findActiveUserByEmail db (normalize_email email) <;>
      simp [request_password_reset, hf]
  · simp [resetCodeString, String.length]
  · have hd : ∀ d : Fin 10, (digitChar d).isDigit = true := by decide
    intro c hc
    simp only [resetCodeString, String.mk] at hc
    obtain ⟨i, _, hi⟩ := List.mem_map.mp hc
    exact hi ▸ hd (digits i)

/-! ## Revocation lemmas -/

theorem verify_token_ok_payload {now : Nat} {t : Token} {c : Claims}
    (h : verify_token now t = .ok c) : c = t.payload := by
  unfold verify_token at h
  split at h
  · cases h
  · split at h
    · cases h
    · cases h
      rfl

theorem verify_refresh_token_ok_payload {now : Nat} {t : Token} {c : Claims}
    (h : verify_refresh_token now t = .ok c) : c = t.payload := by
  unfold verify_refresh_token at h
  cases hv : verify_token now t with
  | error e => rw [hv] at h; cases h
  | ok payload =>
    rw [hv] at h
    have h2 : (if payload.type ≠ some "refresh"
        then (Except.error "Invalid token type: expected refresh token" : Except String Claims)
        else Except.ok payload) = Except.ok c := h
    by_cases ht : payload.type ≠ some "refresh"
    · rw [if_pos ht] at h2
      cases h2
    · rw [if_neg ht] at h2
      cases h2
      exact verify_token_ok_payload hv

theorem refreshMatches_mono_false {now now2 : Nat} {tok : Token} {uid : Nat}
    {r : RefreshTokenRec} (hle : now ≤ now2)
    (h : refreshMatches now tok uid r = false) :
    refreshMatches now2 tok uid r = false := by
  unfold refreshMatches at h ⊢
  by_cases ha : r.token_hash == tok <;>
    by_cases hb : r.user_id == uid <;>
      by_cases hc : r.revoked_at == none <;>
        simp [ha, hb, hc] at h ⊢ <;> omega

theorem revokeFirst_append (now : Nat) (p : RefreshTokenRec → Bool)
    (l1 l2 : List RefreshTokenRec) (r0 : RefreshTokenRec)
    (hl1 : ∀ r ∈ l1, p r = false) (hr0 : p r0 = true) :
    revokeFirst now p (l1 ++ r0 :: l2) =
      l1 ++ { r0 with revoked_at := some now } :: l2 := by
  induction l1 with
  | nil => simp [revokeFirst, hr0]
  | cons a tl ih =>
    have ha : p a = false := hl1 a (by simp)
    simp only [List.cons_append, revokeFirst, ha, Bool.false_eq_true, if_false]
    exact congrArg (List.cons a) (ih (fun r hr => hl1 r (by simp [hr])))

theorem find?_append_cons {α : Type} (p : α → Bool) (l1 l2 : List α) (a : α)
    (h1 : ∀ x ∈ l1, p x = false) (ha : p a = true) :
    (l1 ++ a :: l2).find? p = some a := by
  induction l1 with
  | nil => simpa using List.find?_cons_of_pos _ ha
  | cons b tl ih =>
    rw [List.cons_append,
      List.find?_cons_of_neg _ (by simp [h1 b (by simp)])]
    exact ih (fun x hx => h1 x (by simp [hx]))

theorem revokeAllForUser_user_revoked (now uid : Nat) (l : List RefreshTokenRec) :
    ∀ r ∈ revokeAllForUser now uid l, r.user_id = uid → r.revoked_at ≠ none := by
  intro r hr huid
  unfold revokeAllForUser at hr
  obtain ⟨r0, _, heq⟩ := List.mem_map.mp hr
  by_cases hcond : (r0.user_id == uid && r0.revoked_at == none) = true
  · rw [if_pos hcond] at heq
    rw [← heq]
    simp
  · rw [if_neg hcond] at heq
    subst heq
    simp only [Bool.and_eq_true, beq_iff_eq, not_and] at hcond
    intro hrev
    exact hcond huid (by simp [hrev])

theorem findActiveRefresh_revokeAll_none (now now2 uid : Nat) (tok2 : Token)
    (db2 : DB) (l : List RefreshTokenRec)
    (hdb : db2.refresh_tokens = revokeAllForUser now uid l) :
    findActiveRefresh now2 db2 tok2 uid = none := by
  unfold findActiveRefresh
  apply List.find?_eq_none.mpr
  intro r hr
  rw [hdb] at hr
  have hrev := revokeAllForUser_user_revoked now uid l r hr
  intro hmatch
  unfold refreshMatches at hmatch
  simp only [Bool.and_eq_true, beq_iff_eq, decide_eq_true_eq] at hmatch
  exact hrev hmatch.1.1.2 (by simp [hmatch.1.2])

theorem refresh_errors_of_no_active (now2 : Nat) (jti2 : String) (db2 : DB) (tok2 : Token)
    (h : ∀ uid, tok2.payload.sub = some uid → findActiveRefresh now2 db2 tok2 uid = none) :
    ∃ e, (refresh_token now2 jti2 db2 tok2).1 = .error e ∧ e.status = 401 := by
  cases hv : verify_refresh_token now2 tok2 with
  | error e =>
    refine ⟨⟨401, "Invalid refresh token: " ++ e⟩, ?_, rfl⟩
    simp [refresh_token, hv]
  | ok payload =>
    have hpay : payload = tok2.payload := verify_refresh_token_ok_payload hv
    cases hs : payload.sub with
    | none =>
      refine ⟨⟨401, "Invalid refresh token"⟩, ?_, rfl⟩
      simp [refresh_token, hv, hs]
    | some uid =>
      refine ⟨⟨401, "Refresh token not found, expired, or revoked"⟩, ?_, rfl⟩
      simp [refresh_token, hv, hs, h uid (hpay ▸ hs)]

/-- **C3** — given a valid access token, `logout` sets `revoked_at` on
every refresh record of that user whose `revoked_at` was null, leaves
every other table and every other user's records unchanged, and
afterwards every refresh attempt carrying that user's subject fails
with a 401. -/
theorem logout_revokes_all_user_tokens
    (now : Nat) (db : DB) (tok : Token) (c : Claims) (uid : Nat)
    (hv : verify_jwt_token now tok = .ok c) (hsub : c.sub = some uid) :
    (logout now db tok).1 = .ok ⟨"Logged out successfully"⟩ ∧
    (logout now db tok).2.users = db.users ∧
    (logout now db tok).2.reset_tokens = db.reset_tokens ∧
    (logout now db tok).2.refresh_tokens = revokeAllForUser now uid db.refresh_tokens ∧
    (∀ r ∈ (logout now db tok).2.refresh_tokens, r.user_id = uid → r.revoked_at ≠ none) ∧
    (∀ (i : Nat) (hi : i < db.refresh_tokens.length),
       (db.refresh_tokens.get ⟨i, hi⟩).user_id ≠ uid →
       (revokeAllForUser now uid db.refresh_tokens).get
           ⟨i, by simpa [revokeAllForUser] using hi⟩ =
         db.refresh_tokens.get ⟨i, hi⟩) ∧
    (∀ (now2 : Nat) (jti2 : String) (tok2 : Token),
       tok2.payload.sub = some uid →
       ∃ e, (refresh_token now2 jti2 (logout now db tok).2 tok2).1 = .error e ∧
         e.status = 401) := by
  have hlog : logout now db tok =
      (.ok ⟨"Logged out successfully"⟩,
       { db with refresh_tokens := revokeAllForUser now uid db.refresh_tokens }) := by
    unfold logout
    rw [hv]
    simp [hsub]
  refine ⟨by rw [hlog], by rw [hlog], by rw [hlog], by rw [hlog], ?_, ?_, ?_⟩
  · rw [hlog]
    exact revokeAllForUser_user_revoked now uid db.refresh_tokens
  · intro i hi hne
    rw [List.get_eq_getElem] at hne
    unfold revokeAllForUser
    rw [List.get_eq_getElem, List.get_eq_getElem, List.getElem_map,
      if_neg (by simp [hne])]
  · intro now2 jti2 tok2 hsub2
    apply refresh_errors_of_no_active
    intro uid2 hu2
    rw [hsub2] at hu2
    cases hu2
    apply findActiveRefresh_revokeAll_none now now2 uid tok2 _ db.refresh_tokens
    rw [hlog]

/-- Access token of the C3 witness. -/
def c3Tok : Token := create_access_token 0 1 "a@x.com" "free"

/-- Store of the C3 witness: one active refresh record each for users 1
and 2. -/
def c3DB : DB :=
  ⟨[], [{ user_id := 1, token_hash := (create_refresh_token 0 1 "j0").1,
          expires_at := 604800, revoked_at := none },
        { user_id := 2, token_hash := (create_refresh_token 0 2 "j1").1,
          expires_at := 604800, revoked_at := none }], []⟩

/-- Witness for C3 at a concrete store and token. -/
theorem logout_revokes_all_user_tokens_witness :
    (logout 5 c3DB c3Tok).1 = .ok ⟨"Logged out successfully"⟩ ∧
    (logout 5 c3DB c3Tok).2.users = c3DB.users ∧
    (logout 5 c3DB c3Tok).2.reset_tokens = c3DB.reset_tokens ∧
    (logout 5 c3DB c3Tok).2.refresh_tokens = revokeAllForUser 5 1 c3DB.refresh_tokens ∧
    (∀ r ∈ (logout 5 c3DB c3Tok).2.refresh_tokens, r.user_id = 1 → r.revoked_at ≠ none) ∧
    (∀ (i : Nat) (hi : i < c3DB.refresh_tokens.length),
       (c3DB.refresh_tokens.get ⟨i, hi⟩).user_id ≠ 1 →
       (revokeAllForUser 5 1 c3DB.refresh_tokens).get
           ⟨i, by simpa [revokeAllForUser] using hi⟩ =
         c3DB.refresh_tokens.get ⟨i, hi⟩) ∧
    (∀ (now2 : Nat) (jti2 : String) (tok2 : Token),
       tok2.payload.sub = some 1 →
       ∃ e, (refresh_token now2 jti2 (logout 5 c3DB c3Tok).2 tok2).1 = .error e ∧
         e.status = 401) :=
  logout_revokes_all_user_tokens 5 c3DB c3Tok c3Tok.payload 1 (by decide) (by decide)

theorem resetMatches_mono_false {now now2 uid : Nat} {codeHash : String}
    {r : PasswordResetTokenRec} (hle : now ≤ now2)
    (h : resetMatches now uid codeHash r = false) :
    resetMatches now2 uid codeHash r = false := by
  unfold resetMatches at h ⊢
  by_cases ha : r.user_id == uid <;>
    by_cases hb : r.token_hash == codeHash <;>
      by_cases hc : r.used_at == none <;>
        simp [ha, hb, hc] at h ⊢ <;> omega

theorem markFirstUsed_append (now : Nat) (p : PasswordResetTokenRec → Bool)
    (m1 m2 : List PasswordResetTokenRec) (s0 : PasswordResetTokenRec)
    (hm1 : ∀ r ∈ m1, p r = false) (hs0 : p s0 = true) :
    markFirstUsed now p (m1 ++ s0 :: m2) =
      m1 ++ { s0 with used_at := some now } :: m2 := by
  induction m1 with
  | nil => simp [markFirstUsed, hs0]
  | cons a tl ih =>
    have ha : p a = false := hm1 a (by simp)
    simp only [List.cons_append, markFirstUsed, ha, Bool.false_eq_true, if_false]
    exact congrArg (List.cons a) (ih (fun r hr => hm1 r (by simp [hr])))

theorem find?_ext {α : Type} (p q : α → Bool) (l : List α) (h : ∀ a, p a = q a) :
    l.find? p = l.find? q := by
  induction l with
  | nil => rfl
  | cons a tl ih =>
    by_cases ha : p a = true
    · rw [List.find?_cons_of_pos _ ha, List.find?_cons_of_pos _ ((h a) ▸ ha)]
    · rw [List.find?_cons_of_neg _ ha, List.find?_cons_of_neg _ ((h a) ▸ ha), ih]

theorem updatePasswordHash_find?_email (uid : Nat) (hsh e : String) (l : List UserRec) :
    (updatePasswordHash uid hsh l).find? (fun u => u.email == e && u.deleted_at == none) =
      (l.find? (fun u => u.email == e && u.deleted_at == none)).map
        (fun u => if u.id == uid then { u with password_hash := some hsh } else u) := by
  unfold updatePasswordHash
  rw [List.find?_map]
  congr 1
  apply find?_ext
  intro u
  by_cases h : u.id == uid <;> simp [Function.comp, h]

/-- **C4** — a successful `reset_password` (active user, exactly one
matching unused unexpired reset record, strong new password) updates the
password hash, sets `used_at` on the matched record and revokes all of
the user's active refresh tokens in the same commit, and a second
confirm with the same code fails `InvalidReset` at any later time, even
before the code's expiry. -/
theorem confirm_password_reset_single_use
    (now : Nat) (db : DB) (email code newpw : String) (u : UserRec)
    (m1 m2 : List PasswordResetTokenRec) (s0 : PasswordResetTokenRec)
    (hu : findActiveUserByEmail db (normalize_email email) = some u)
    (hsplit : db.reset_tokens = m1 ++ s0 :: m2)
    (hm1 : ∀ r ∈ m1, resetMatches now u.id (hash_token code) r = false)
    (hs0 : resetMatches now u.id (hash_token code) s0 = true)
    (huniq : ∀ r ∈ m1 ++ m2, ¬(r.user_id = u.id ∧ r.token_hash = hash_token code))
    (hstrong : (validate_password_strength newpw).1 = true) :
    (reset_password now db email code newpw).1 =
      .ok ⟨"Password reset successfully. Please login with your new password."⟩ ∧
    (reset_password now db email code newpw).2.users =
      updatePasswordHash u.id (hash_password newpw) db.users ∧
    (reset_password now db email code newpw).2.reset_tokens =
      m1 ++ { s0 with used_at := some now } :: m2 ∧
    (reset_password now db email code newpw).2.refresh_tokens =
      revokeAllForUser now u.id db.refresh_tokens ∧
    (∀ r ∈ (reset_password now db email code newpw).2.refresh_tokens,
       r.user_id = u.id → r.revoked_at ≠ none) ∧
    (∀ now2 pw2, now ≤ now2 →
       (reset_password now2 (reset_password now db email code newpw).2 email code pw2).1 =
         .error ⟨400, "Invalid or expired reset code"⟩) := by
  have hfind : findActiveReset now db u.id (hash_token code) = some s0 := by
    unfold findActiveReset
    rw [hsplit]
    exact find?_append_cons _ m1 m2 s0 hm1 hs0
  have hres : reset_password now db email code newpw =
      (.ok ⟨"Password reset successfully. Please login with your new password."⟩,
       { users := updatePasswordHash u.id (hash_password newpw) db.users,
         refresh_tokens := revokeAllForUser now u.id db.refresh_tokens,
         reset_tokens :=
           markFirstUsed now (resetMatches now u.id (hash_token code)) db.reset_tokens }) := by
    simp [reset_password, hu, hfind, hstrong]
  have hmark : markFirstUsed now (resetMatches now u.id (hash_token code)) db.reset_tokens =
      m1 ++ { s0 with used_at := some now } :: m2 := by
    rw [hsplit]
    exact markFirstUsed_append now _ m1 m2 s0 hm1 hs0
  refine ⟨by rw [hres], by rw [hres], by rw [hres]; exact hmark, by rw [hres], ?_, ?_⟩
  · rw [hres]
    exact revokeAllForUser_user_revoked now u.id db.refresh_tokens
  · intro now2 pw2 hle
    set db2 := (reset_password now db email code newpw).2 with hdb2
    have hu2 : findActiveUserByEmail db2 (normalize_email email) =
        some { u with password_hash := some (hash_password newpw) } := by
      rw [hdb2, hres]
      unfold findActiveUserByEmail at hu ⊢
      rw [updatePasswordHash_find?_email, hu]
      simp
    have hfind2 : findActiveReset now2 db2 u.id (hash_token code) = none := by
      unfold findActiveReset
      apply List.find?_eq_none.mpr
      intro r hr
      rw [hdb2, hres, hmark] at hr
      simp only [List.mem_append, List.mem_cons] at hr
      rcases hr with h | h | h
      · simp [resetMatches_mono_false hle (hm1 r h)]
      · subst h
        simp [resetMatches]
      · have := huniq r (by simp [h])
        unfold resetMatches
        simp only [Bool.and_eq_true, beq_iff_eq, decide_eq_true_eq]
        intro hmatch
        exact this ⟨hmatch.1.1.1, hmatch.1.1.2⟩
    simp [reset_password, hu2, hfind2]

/-- User of the C4 witness. -/
def c4User : UserRec :=
  { id := 1, email := "a@x.com", name := "A",
    password_hash := some (hash_password "Old1!aaa"), subscription_type := "free",
    created_at := 0, updated_at := 0, deleted_at := none }

/-- The single reset record of the C4 witness. -/
def c4Reset : PasswordResetTokenRec :=
  { user_id := 1, token_hash := hash_token "123456", expires_at := 3600, used_at := none }

/-- Store of the C4 witness. -/
def c4DB : DB :=
  ⟨[c4User],
   [{ user_id := 1, token_hash := (create_refresh_token 0 1 "j0").1,
      expires_at := 604800, revoked_at := none }],
   [c4Reset]⟩

/-- Witness for C4 at a concrete store, code and password. -/
theorem confirm_password_reset_single_use_witness :
    (reset_password 10 c4DB "a@x.com" "123456" "Xyzw1!ab").1 =
      .ok ⟨"Password reset successfully. Please login with your new password."⟩ ∧
    (reset_password 10 c4DB "a@x.com" "123456" "Xyzw1!ab").2.users =
      updatePasswordHash c4User.id (hash_password "Xyzw1!ab") c4DB.users ∧
    (reset_password 10 c4DB "a@x.com" "123456" "Xyzw1!ab").2.reset_tokens =
      [] ++ { c4Reset with used_at := some 10 } :: [] ∧
    (reset_password 10 c4DB "a@x.com" "123456" "Xyzw1!ab").2.refresh_tokens =
      revokeAllForUser 10 c4User.id c4DB.refresh_tokens ∧
    (∀ r ∈ (reset_password 10 c4DB "a@x.com" "123456" "Xyzw1!ab").2.refresh_tokens,
       r.user_id = c4User.id → r.revoked_at ≠ none) ∧
    (∀ now2 pw2, 10 ≤ now2 →
       (reset_password now2 (reset_password 10 c4DB "a@x.com" "123456" "Xyzw1!ab").2
           "a@x.com" "123456" pw2).1 =
         .error ⟨400, "Invalid or expired reset code"⟩) :=
  confirm_password_reset_single_use 10 c4DB "a@x.com" "123456" "Xyzw1!ab" c4User
    [] [] c4Reset (by decide) (by decide) (by simp) (by decide) (by simp) (by decide)

/-- **C1** — with a valid refresh token whose hash matches exactly one
persisted record, that record active and the user active, `refresh_token`
succeeds: in one commit it revokes the matched record and persists the
new pair; afterwards any further refresh with the same raw token fails
with a 401, and a record that is revoked or expired never satisfies the
active-record lookup. -/
theorem refresh_rotation_single_use
    (now : Nat) (jtiNew : String) (db : DB) (tok : Token) (uid : Nat)
    (user : UserRec) (l1 l2 : List RefreshTokenRec) (r0 : RefreshTokenRec)
    (hv : verify_refresh_token now tok = .ok tok.payload)
    (hsub : tok.payload.sub = some uid)
    (hsplit : db.refresh_tokens = l1 ++ r0 :: l2)
    (hl1 : ∀ r ∈ l1, refreshMatches now tok uid r = false)
    (hr0 : refreshMatches now tok uid r0 = true)
    (huniq : ∀ r ∈ l1 ++ l2, r.token_hash ≠ tok)
    (huser : findActiveUserById db uid = some user)
    (hjti : tok.payload.jti ≠ some jtiNew) :
    (refresh_token now jtiNew db tok).1 =
      .ok { access_token := create_access_token now user.id user.email user.subscription_type,
            refresh_token := (create_refresh_token now user.id jtiNew).1 } ∧
    (refresh_token now jtiNew db tok).2.users = db.users ∧
    (refresh_token now jtiNew db tok).2.reset_tokens = db.reset_tokens ∧
    (refresh_token now jtiNew db tok).2.refresh_tokens =
      l1 ++ { r0 with revoked_at := some now } ::
        (l2 ++ [{ user_id := user.id,
                  token_hash := (create_refresh_token now user.id jtiNew).1,
                  expires_at := now + 7 * 86400, revoked_at := none }]) ∧
    (∀ now2 jti2, now ≤ now2 →
       ∃ e, (refresh_token now2 jti2 (refresh_token now jtiNew db tok).2 tok).1 =
           .error e ∧ e.status = 401) ∧
    (∀ r ∈ db.refresh_tokens, r.revoked_at ≠ none →
       r ∈ (refresh_token now jtiNew db tok).2.refresh_tokens) ∧
    (∀ (r : RefreshTokenRec) (now2 uid2 : Nat) (tok2 : Token),
       r.revoked_at ≠ none ∨ r.expires_at ≤ now2 →
       refreshMatches now2 tok2 uid2 r = false) := by
  have hfind : findActiveRefresh now db tok uid = some r0 := by
    unfold findActiveRefresh
    rw [hsplit]
    exact find?_append_cons _ l1 l2 r0 hl1 hr0
  have hres : refresh_token now jtiNew db tok =
      (.ok { access_token := create_access_token now user.id user.email user.subscription_type,
             refresh_token := (create_refresh_token now user.id jtiNew).1 },
       { db with refresh_tokens :=
           revokeFirst now (refreshMatches now tok uid) db.refresh_tokens ++
             [{ user_id := user.id,
                token_hash := (create_refresh_token now user.id jtiNew).1,
                expires_at := now + 7 * 86400, revoked_at := none }] }) := by
    simp [refresh_token, hv, hsub, hfind, huser]
  have hrevoke : revokeFirst now (refreshMatches now tok uid) db.refresh_tokens =
      l1 ++ { r0 with revoked_at := some now } :: l2 := by
    rw [hsplit]
    exact revokeFirst_append now _ l1 l2 r0 hl1 hr0
  have hneq : (create_refresh_token now user.id jtiNew).1 ≠ tok := by
    intro he
    apply hjti
    rw [← he]
    rfl
  refine ⟨by rw [hres], by rw [hres], by rw [hres], ?_, ?_, ?_, ?_⟩
  · rw [hres]
    show revokeFirst now (refreshMatches now tok uid) db.refresh_tokens ++ _ = _
    rw [hrevoke]
    simp
  · intro now2 jti2 hle
    apply refresh_errors_of_no_active
    intro uid2 hu2
    rw [hsub] at hu2
    cases hu2
    unfold findActiveRefresh
    apply List.find?_eq_none.mpr
    intro r hr
    rw [hres] at hr
    simp only at hr
    rw [hrevoke] at hr
    simp only [List.mem_append, List.mem_cons, List.mem_singleton,
      List.not_mem_nil, or_false] at hr
    rcases hr with (h | h | h) | h
    · simp [refreshMatches_mono_false hle (hl1 r h)]
    · subst h
      simp [refreshMatches]
    · have hne := huniq r (by simp [h])
      unfold refreshMatches
      simp only [Bool.and_eq_true, beq_iff_eq, decide_eq_true_eq]
      intro hm
      exact hne hm.1.1.1
    · subst h
      unfold refreshMatches
      simp [hneq]
  · intro r hr hrev
    rw [hres]
    show r ∈ revokeFirst now (refreshMatches now tok uid) db.refresh_tokens ++ _
    rw [hrevoke]
    rw [hsplit] at hr
    simp only [List.mem_append, List.mem_cons] at hr ⊢
    rcases hr with h | h | h
    · exact Or.inl (Or.inl h)
    · exfalso
      subst h
      unfold refreshMatches at hr0
      simp only [Bool.and_eq_true, beq_iff_eq] at hr0
      exact hrev hr0.1.2
    · exact Or.inl (Or.inr (Or.inr h))
  · intro r now2 uid2 tok2 h
    unfold refreshMatches
    rcases h with h | h
    · simp [h]
    · have : ¬ (now2 < r.expires_at) := by omega
      simp [this]

/-- Raw refresh token of the C1 witness (issued at time 0 for user 1). -/
def c1Tok : Token := (create_refresh_token 0 1 "j0").1

/-- User of the C1 witness. -/
def c1User : UserRec :=
  { id := 1, email := "a@x.com", name := "A",
    password_hash := some (hash_password "Old1!aaa"), subscription_type := "free",
    created_at := 0, updated_at := 0, deleted_at := none }

/-- The single active persisted record matching `c1Tok`. -/
def c1Rec : RefreshTokenRec :=
  { user_id := 1, token_hash := c1Tok, expires_at := 604800, revoked_at := none }

/-- Store of the C1 witness. -/
def c1DB : DB := ⟨[c1User], [c1Rec], []⟩

/-- Witness for C1 at a concrete store and token. -/
theorem refresh_rotation_single_use_witness :
    (refresh_token 5 "j1" c1DB c1Tok).1 =
      .ok { access_token := create_access_token 5 c1User.id c1User.email
              c1User.subscription_type,
            refresh_token := (create_refresh_token 5 c1User.id "j1").1 } ∧
    (refresh_token 5 "j1" c1DB c1Tok).2.users = c1DB.users ∧
    (refresh_token 5 "j1" c1DB c1Tok).2.reset_tokens = c1DB.reset_tokens ∧
    (refresh_token 5 "j1" c1DB c1Tok).2.refresh_tokens =
      [] ++ { c1Rec with revoked_at := some 5 } ::
        ([] ++ [{ user_id := c1User.id,
                  token_hash := (create_refresh_token 5 c1User.id "j1").1,
                  expires_at := 5 + 7 * 86400, revoked_at := none }]) ∧
    (∀ now2 jti2, 5 ≤ now2 →
       ∃ e, (refresh_token now2 jti2 (refresh_token 5 "j1" c1DB c1Tok).2 c1Tok).1 =
           .error e ∧ e.status = 401) ∧
    (∀ r ∈ c1DB.refresh_tokens, r.revoked_at ≠ none →
       r ∈ (refresh_token 5 "j1" c1DB c1Tok).2.refresh_tokens) ∧
    (∀ (r : RefreshTokenRec) (now2 uid2 : Nat) (tok2 : Token),
       r.revoked_at ≠ none ∨ r.expires_at ≤ now2 →
       refreshMatches now2 tok2 uid2 r = false) :=
  refresh_rotation_single_use 5 "j1" c1DB c1Tok 1 c1User [] [] c1Rec
    (by decide) (by decide) (by decide) (by simp) (by decide) (by simp)
    (by decide) (by decide)

/-- Witness for C6: one-user store, fixed digit draws. -/
theorem request_password_reset_anti_enumeration_witness :
    (request_password_reset 0 (fun _ => 3) ⟨[c5User], [], []⟩ "a@x.com").1 =
      ⟨resetRequestMsg⟩ ∧
    (request_password_reset 0 (fun _ => 3) ⟨[c5User], [], []⟩ "a@x.com").2 =
      (match findActiveUserByEmail ⟨[c5User], [], []⟩ (normalize_email "a@x.com") with
       | none => (⟨[c5User], [], []⟩ : DB)
       | some user =>
         { (⟨[c5User], [], []⟩ : DB) with reset_tokens :=
             (⟨[c5User], [], []⟩ : DB).reset_tokens ++
             [{ user_id := user.id,
                token_hash := hash_token (resetCodeString (fun _ => 3)),
                expires_at := 0 + 3600, used_at := none }] }) ∧
    (resetCodeString (fun _ => 3)).length = 6 ∧
    (∀ c ∈ (resetCodeString (fun _ => 3)).data, c.isDigit = true) :=
  request_password_reset_anti_enumeration 0 (fun _ => 3) ⟨[c5User], [], []⟩ "a@x.com"

/-- Witness for C7: empty state, one IP. -/
theorem login_rate_limit_gate_witness :
    ((login 0 "j" ⟨⟨[], [], []⟩, []⟩ "1.1.1.1" "a@x.com" "Pw1!aaaa").1 =
        .error ⟨429, tooManyMsg⟩ ↔
      MAX_LOGIN_ATTEMPTS ≤ windowCount 0 ([] : AttemptMap) "1.1.1.1") ∧
    (MAX_LOGIN_ATTEMPTS ≤ windowCount 0 ([] : AttemptMap) "1.1.1.1" →
      ∀ email2 password2 jti2,
        login 0 "j" ⟨⟨[], [], []⟩, []⟩ "1.1.1.1" "a@x.com" "Pw1!aaaa" =
          login 0 jti2 ⟨⟨[], [], []⟩, []⟩ "1.1.1.1" email2 password2 ∧
        (login 0 "j" ⟨⟨[], [], []⟩, []⟩ "1.1.1.1" "a@x.com" "Pw1!aaaa").2.db =
          (⟨⟨[], [], []⟩, []⟩ : AuthState).db) ∧
    (∀ r, (login 0 "j" ⟨⟨[], [], []⟩, []⟩ "1.1.1.1" "a@x.com" "Pw1!aaaa").1 = .ok r →
      ∀ now2, 0 ≤ now2 → ∀ ip2,
        windowCount now2
            (login 0 "j" ⟨⟨[], [], []⟩, []⟩ "1.1.1.1" "a@x.com" "Pw1!aaaa").2.attempts
            ip2 =
          windowCount now2 ([] : AttemptMap) ip2) ∧
    (∀ ip2, ip2 ≠ "1.1.1.1" →
      lookupAttempts
          (login 0 "j" ⟨⟨[], [], []⟩, []⟩ "1.1.1.1" "a@x.com" "Pw1!aaaa").2.attempts
          ip2 =
        lookupAttempts ([] : AttemptMap) ip2) :=
  login_rate_limit_gate 0 "j" ⟨⟨[], [], []⟩, []⟩ "1.1.1.1" "a@x.com" "Pw1!aaaa"

/-- Witness for C8 at a concrete password. -/
theorem validate_password_strength_first_failure_witness :
    validate_password_strength "Xyzw1!ab" = firstFailure strengthRules "Xyzw1!ab" ∧
    ((validate_password_strength "Xyzw1!ab").1 = true ↔
      ∀ r ∈ strengthRules, r.1 "Xyzw1!ab" = true) :=
  validate_password_strength_first_failure "Xyzw1!ab"
